import Mathlib

/-!
Shallow embedding of the migration execution engine of NepalEntityService
(`src/nes/services/migration/runner.py`, class `MigrationRunner`).

External effects (the dynamic Python import machinery, `subprocess` git
calls, the entity database, the script's own body, wall-clock time, and
raised exceptions from collaborators) are supplied as explicit outcome
data in a `RunEnv`; the durable storage tree (migration-log artifacts and
the uncommitted-change state of the git working tree) is an explicit
`World` threaded through the runner.  The control flow, the order of
checks, every status/error/log assignment, and the order of the log-store
writes are translated line by line from `runner.py`.
-/

namespace NES

/-- Python truthiness of a `str`: `True` iff non-empty. -/
def pyTruthyStr (s : String) : Bool := !s.data.isEmpty

/-- Python truthiness of an `Optional[str]`: `None` and `""` are falsy. -/
def pyTruthyOpt : Option String → Bool
  | none => false
  | some s => pyTruthyStr s

/-- Python falsiness of an `Optional[str]` value, as used by
`if not metadata["author"]` in `_load_script` (lines 223-228). -/
def pyFalsyOpt (o : Option String) : Bool := !(pyTruthyOpt o)

/-- `MigrationStatus` enum (`nes/services/migration/models.py`, imported by
the runner; values used in `runner.py`: RUNNING, COMPLETED, FAILED,
SKIPPED). -/
inductive MigrationStatus where
  | running
  | completed
  | failed
  | skipped
deriving DecidableEq, Repr

/-- A `Migration` descriptor as consumed by the runner: the runner reads
`full_name`, `script_path`, `folder_path`, `author`, `date`,
`description`.  Paths are abstract strings; `date` is carried as its ISO
rendering (`migration.date.isoformat()` in `_store_migration_log`). -/
structure Migration where
  full_name : String
  script_path : String
  author : Option String := none
  date : Option String := none
  description : Option String := none
deriving DecidableEq, Repr

/-- Load-time failures of `_load_script` (runner.py lines 121-241).  The
source raises `ValueError` / `SyntaxError`; each constructor records one
`raise` site with the data interpolated into its message. -/
inductive LoadError where
  /-- line 152: `Migration script not found: {script_path}` -/
  | scriptNotFound (path : String)
  /-- lines 177-186: re-raised `SyntaxError` with formatted detail -/
  | synError (detail : String)
  /-- lines 188-191: `Failed to load migration script {name}: {e}` -/
  | loadFailed (name : String) (detail : String)
  /-- lines 194-197: missing `migrate` attribute -/
  | noMigrateFunction (name : String)
  /-- lines 202-205: `migrate` not callable -/
  | notCallable (name : String)
  /-- lines 208-212: `migrate` not `async def` -/
  | notAsync (name : String)
  /-- lines 230-234: missing metadata, naming each absent field -/
  | missingMetadata (name : String) (fields : List String)
deriving DecidableEq, Repr

/-- Errors that can end up in `MigrationResult.error`. -/
inductive Err where
  /-- `RuntimeError(error_msg)` from the preflight dirty-tree check -/
  | runtimeError (msg : String)
  /-- an exception escaping `_load_script` -/
  | loadErr (e : LoadError)
  /-- an exception raised by the executing `migrate()` coroutine -/
  | execError (msg : String)
  /-- an exception raised by `_store_migration_log` -/
  | storeError (msg : String)
deriving DecidableEq, Repr

/-- `MigrationResult` (`nes/services/migration/models.py`).  Modelled from
the spec: the model file is not in the sources; spec section 3 fixes the
fields (`status`, `duration_seconds` present once execution starts,
signed deltas defaulting to zero, `error` present iff FAILED, append-only
`logs`), and `run_migration` constructs it with only `migration` and
`status`, so the remaining fields carry defaults. -/
structure MigrationResult where
  migration : Migration
  status : MigrationStatus
  duration_seconds : Option Nat := none
  entities_created : Int := 0
  relationships_created : Int := 0
  versions_created : Int := 0
  error : Option Err := none
  logs : List String := []
deriving DecidableEq, Repr

/-- Outcome of the dynamic import (`spec_from_file_location` /
`exec_module`, runner.py lines 157-191), supplied by the environment:
either the module loads, or a `SyntaxError` is raised, or some other
exception is raised (the spec-is-None `ValueError` of line 161 is one
such exception, caught and wrapped by the generic handler). -/
inductive ImportOutcome where
  | ok
  | synErr (detail : String)
  | exc (detail : String)
deriving DecidableEq, Repr

/-- The observable shape of a migration script module, as probed by
`_load_script`: existence of the file, import outcome, presence /
callability / coroutine-ness of `migrate`, and the `AUTHOR` / `DATE` /
`DESCRIPTION` module attributes (`getattr(module, _, None)`). -/
structure Script where
  pathExists : Bool
  importOutcome : ImportOutcome
  hasMigrate : Bool
  migrateCallable : Bool
  migrateIsCoroutine : Bool
  moduleAuthor : Option String := none
  moduleDate : Option String := none
  moduleDescription : Option String := none
deriving DecidableEq, Repr

/-- The metadata dict built by `_load_script` (runner.py lines 215-219). -/
structure ScriptMeta where
  author : Option String
  date : Option String
  description : Option String
deriving DecidableEq, Repr

/-- The list of absent metadata fields, in the order the source checks
them (runner.py lines 222-228): AUTHOR, then DATE, then DESCRIPTION. -/
def missingMetadataFields (s : Script) : List String :=
  (if pyFalsyOpt s.moduleAuthor then ["AUTHOR"] else []) ++
  (if pyFalsyOpt s.moduleDate then ["DATE"] else []) ++
  (if pyFalsyOpt s.moduleDescription then ["DESCRIPTION"] else [])

/-- `MigrationRunner._load_script` (runner.py lines 121-241): existence
check, dynamic import (syntax errors and other import failures wrapped
into distinct errors), `migrate` presence / callability / async checks,
then required-metadata validation naming each missing field. -/
def load_script (m : Migration) (s : Script) : Except LoadError ScriptMeta :=
  if !s.pathExists then
    .error (.scriptNotFound m.script_path)
  else
    match s.importOutcome with
    | .synErr d => .error (.synError d)
    | .exc d => .error (.loadFailed m.full_name d)
    | .ok =>
      if !s.hasMigrate then
        .error (.noMigrateFunction m.full_name)
      else if !s.migrateCallable then
        .error (.notCallable m.full_name)
      else if !s.migrateIsCoroutine then
        .error (.notAsync m.full_name)
      else
        let missing := missingMetadataFields s
        if missing.isEmpty then
          .ok { author := s.moduleAuthor, date := s.moduleDate,
                description := s.moduleDescription }
        else
          .error (.missingMetadata m.full_name missing)

/-- Rendering of a load error into the message string appended to the
result logs by `run_migration` (line 325: `f"Failed to load migration
script: {e}"`); the per-constructor text follows the `raise` sites. -/
def LoadError.message : LoadError → String
  | .scriptNotFound p => "Migration script not found: " ++ p
  | .synError d => d
  | .loadFailed n d => "Failed to load migration script " ++ n ++ ": " ++ d
  | .noMigrateFunction n =>
      "Migration script " ++ n ++ " must define a 'migrate()' function"
  | .notCallable n =>
      "'migrate' in " ++ n ++ " must be a callable function"
  | .notAsync n =>
      "'migrate()' function in " ++ n ++ " must be async (defined with 'async def')"
  | .missingMetadata n fs =>
      "Migration script " ++ n ++ " is missing required metadata: " ++
        String.intercalate ", " fs

/-- The metadata record written to `metadata.json` by
`_store_migration_log` (runner.py lines 636-651).  `executed_at` is
wall-clock (`datetime.now()`), external, and omitted; the remaining
fields are computed from the inputs exactly as in the source.  `has_diff`
is `git_diff is not None and len(git_diff) > 0` (line 649). -/
structure LogMeta where
  migration_name : String
  author : Option String
  date : Option String
  description : Option String
  duration_seconds : Option Nat
  status : MigrationStatus
  entities_created : Int
  relationships_created : Int
  versions_created : Int
  has_diff : Bool
deriving DecidableEq, Repr

/-- The durable state the runner touches: whether the database directory
is a git repository, the set of paths with uncommitted changes (modified
tracked files plus untracked files, which is exactly what `_get_git_diff`
reports via `git diff HEAD` and `git ls-files --others`), and the three
per-migration log artifacts under `migration-logs/<name>/`
(`metadata.json` content, `changes.diff` presence, `logs.txt`
presence). -/
structure World where
  isRepo : Bool
  dirty : List String
  records : List (String × LogMeta) := []
  diffFiles : List String := []
  logFiles : List String := []
deriving DecidableEq, Repr

/-- Outcome of one `subprocess` git invocation inside `_get_git_diff`,
supplied by the environment: normal completion, `TimeoutExpired` (caught
at runner.py line 581), or a non-zero exit / other failure (lines
522-524 and 584-586). -/
inductive GitCall where
  | normal
  | timeout
  | cmdError
deriving DecidableEq, Repr

/-- Abstract rendering of the combined diff text `_get_git_diff` builds:
one part per uncommitted path, parts joined by newlines as in line 575
(`"+ " ++ intercalate "\n+ " l` equals `intercalate "\n" (l.map ("+ " ++ ·))`
for non-empty `l`, and the guard in `get_git_diff` only renders non-empty
lists).  The leading marker makes the text visibly non-empty. -/
def renderDiff (paths : List String) : String :=
  "+ " ++ String.intercalate "\n+ " paths

/-- `MigrationRunner._get_git_diff` (runner.py lines 486-586): `None`
when the directory is not a git repository, when the git call times out
or fails, or when there are no uncommitted changes; otherwise the
combined diff text of all uncommitted paths. -/
def get_git_diff (call : GitCall) (w : World) : Option String :=
  if !w.isRepo then none
  else match call with
    | .timeout => none
    | .cmdError => none
    | .normal =>
      if w.dirty.isEmpty then none
      else some (renderDiff w.dirty)

/-- `MigrationRunner._is_migration_logged` (runner.py lines 588-600):
true iff `migration-logs/<full_name>/metadata.json` exists. -/
def is_migration_logged (m : Migration) (w : World) : Bool :=
  (w.records.map Prod.fst).contains m.full_name

/-- `MigrationRunner._count_entities` (runner.py lines 409-423): the
database listing either yields entities or raises; a raise degrades to
count zero plus a logged warning.  Returns (count, warning). -/
def count_entities (o : Except String Nat) : Nat × Option String :=
  match o with
  | .ok n => (n, none)
  | .error e => (0, some ("Failed to count entities: " ++ e))

/-- `MigrationRunner._count_relationships` (runner.py lines 425-439). -/
def count_relationships (o : Except String Nat) : Nat × Option String :=
  match o with
  | .ok n => (n, none)
  | .error e => (0, some ("Failed to count relationships: " ++ e))

/-- `MigrationRunner._count_version_files` (runner.py lines 441-461); a
missing `version/` directory is the `.ok 0` outcome. -/
def count_version_files (o : Except String Nat) : Nat × Option String :=
  match o with
  | .ok n => (n, none)
  | .error e => (0, some ("Failed to count version files: " ++ e))

/-- The artifact-writing steps of `_store_migration_log`, in source
order: `log_dir.mkdir` (line 631), `metadata.json` (lines 653-655),
`changes.diff` (lines 660-664, only when the diff is truthy), `logs.txt`
(lines 667-676). -/
inductive StoreStep where
  | mkdirStep
  | metadataStep
  | diffStep
  | logsStep
deriving DecidableEq, Repr

/-- The sequence of write steps `_store_migration_log` performs for a
given diff argument, in the order of the source (mkdir, then metadata,
then diff if present, then logs). -/
def store_steps (git_diff : Option String) : List StoreStep :=
  [.mkdirStep, .metadataStep] ++
    (if pyTruthyOpt git_diff then [.diffStep] else []) ++ [.logsStep]

/-- Path of one artifact under `migration-logs/<name>/`
(`_get_migration_log_dir`, runner.py lines 463-474). -/
def logPath (m : Migration) (file : String) : String :=
  "migration-logs/" ++ m.full_name ++ "/" ++ file

/-- Effect of one completed store step on the world.  A newly written
file under `migration-logs/` is an uncommitted (untracked) change. -/
def applyStoreStep (m : Migration) (meta : LogMeta) (w : World) :
    StoreStep → World
  | .mkdirStep => w
  | .metadataStep =>
      { w with records := w.records ++ [(m.full_name, meta)],
               dirty := w.dirty ++ [logPath m "metadata.json"] }
  | .diffStep =>
      { w with diffFiles := w.diffFiles ++ [m.full_name],
               dirty := w.dirty ++ [logPath m "changes.diff"] }
  | .logsStep =>
      { w with logFiles := w.logFiles ++ [m.full_name],
               dirty := w.dirty ++ [logPath m "logs.txt"] }

/-- The `metadata.json` content for a store call (runner.py lines
636-651). -/
def buildLogMeta (m : Migration) (res : MigrationResult)
    (git_diff : Option String) : LogMeta :=
  { migration_name := m.full_name
    author := m.author
    date := m.date
    description := m.description
    duration_seconds := res.duration_seconds
    status := res.status
    entities_created := res.entities_created
    relationships_created := res.relationships_created
    versions_created := res.versions_created
    has_diff := pyTruthyOpt git_diff }

/-- `MigrationRunner._store_migration_log` (runner.py lines 602-679).
`failAt` names the write statement that raises (if any); steps before it
take effect, it and the steps after it do not, and the exception
propagates with `errMsg`.  A `failAt` naming a step that is not executed
for this call (a diff write with no diff) does not fire. -/
def store_migration_log (m : Migration) (res : MigrationResult)
    (git_diff : Option String) (failAt : Option StoreStep) (errMsg : String)
    (w : World) : Except String Unit × World :=
  let meta := buildLogMeta m res git_diff
  let steps := store_steps git_diff
  match failAt with
  | none => (.ok (), steps.foldl (applyStoreStep m meta) w)
  | some st =>
    if steps.contains st then
      (.error errMsg,
       (steps.takeWhile (fun s => s ≠ st)).foldl (applyStoreStep m meta) w)
    else
      (.ok (), steps.foldl (applyStoreStep m meta) w)

deriving instance DecidableEq for Except

/-- One `run_migration` call's external outcomes: the environment toggle,
the script module found by the loader, the result of each git
subprocess, the six count queries, the `migrate()` coroutine's outcome
(and the uncommitted paths its database writes leave behind, applied
whether it returns or raises), the context's log buffer, the measured
wall-clock duration, and which store write (if any) raises. -/
structure RunEnv where
  gitCheckDisabled : Bool
  script : Script
  preflightGit : GitCall := .normal
  postGit : GitCall := .normal
  entitiesBefore : Except String Nat := .ok 0
  relationshipsBefore : Except String Nat := .ok 0
  versionsBefore : Except String Nat := .ok 0
  entitiesAfter : Except String Nat := .ok 0
  relationshipsAfter : Except String Nat := .ok 0
  versionsAfter : Except String Nat := .ok 0
  execOutcome : Except String Unit := .ok ()
  execDirty : List String := []
  execTraceback : String := ""
  contextLogs : List String := []
  duration : Nat := 0
  storeFail : Option StoreStep := none
  storeErrMsg : String := ""
deriving DecidableEq, Repr

/-- Instrumentation of one `run_migration` call: whether `_load_script`
was invoked, whether the `migrate()` coroutine was awaited, how many
count measurements ran, whether `_store_migration_log` was called, and
the warnings logged by degraded count measurements. -/
structure RunTrace where
  loaderInvoked : Bool := false
  scriptExecuted : Bool := false
  countCalls : Nat := 0
  storeCalled : Bool := false
  warnings : List String := []
deriving DecidableEq, Repr

/-- Result, world and trace of one `run_migration` call. -/
structure RunOutput where
  result : MigrationResult
  world : World
  trace : RunTrace
deriving DecidableEq, Repr

/-- The world after the `migrate()` coroutine has run: whatever paths the
script touched are now uncommitted changes (runner.py line 343; the
script writes through the database under `db_path`). -/
def execWorld (env : RunEnv) (w : World) : World :=
  { w with dirty := w.dirty ++ env.execDirty }

/-- The preflight failure message (runner.py lines 288-292). -/
def dirtyTreeMsg (m : Migration) : String :=
  "Cannot run migration " ++ m.full_name ++ ": Database has uncommitted changes. " ++
    "Please commit or stash changes before running migrations."

/-- The skip log line (runner.py lines 312-314). -/
def skipMsg (m : Migration) : String :=
  "Migration " ++ m.full_name ++ " already applied, skipping"

/-- The warnings the three measure-before counts log (runner.py lines
332-334). -/
def beforeWarnings (env : RunEnv) : List String :=
  (count_entities env.entitiesBefore).2.toList ++
    (count_relationships env.relationshipsBefore).2.toList ++
    (count_version_files env.versionsBefore).2.toList

/-- The warnings the three measure-after counts log (runner.py lines
350-352). -/
def afterWarnings (env : RunEnv) : List String :=
  (count_entities env.entitiesAfter).2.toList ++
    (count_relationships env.relationshipsAfter).2.toList ++
    (count_version_files env.versionsAfter).2.toList

/-- The result built on the successful-execution path before the store
call (runner.py lines 345-362): duration, the three after-minus-before
deltas, the merged context logs, status `COMPLETED`. -/
def completedResult (env : RunEnv) (m : Migration) : MigrationResult :=
  { migration := m
    status := .completed
    duration_seconds := some env.duration
    entities_created :=
      ((count_entities env.entitiesAfter).1 : Int) -
        ((count_entities env.entitiesBefore).1 : Int)
    relationships_created :=
      ((count_relationships env.relationshipsAfter).1 : Int) -
        ((count_relationships env.relationshipsBefore).1 : Int)
    versions_created :=
      ((count_version_files env.versionsAfter).1 : Int) -
        ((count_version_files env.versionsBefore).1 : Int)
    error := none
    logs := env.contextLogs }

/-- The result built when the `migrate()` coroutine raises `e` (runner.py
lines 385-400): duration, status `FAILED`, the error, the merged context
logs plus the error line and traceback.  The after-counts are not taken
and the deltas stay zero on this path. -/
def failedExecResult (env : RunEnv) (m : Migration) (e : String) :
    MigrationResult :=
  { migration := m
    status := .failed
    duration_seconds := some env.duration
    error := some (.execError e)
    logs := env.contextLogs ++ ["ERROR: " ++ e, "Traceback:\n" ++ env.execTraceback] }

/-- The `_store_migration_log` call made on the success path (runner.py
lines 371-376): it receives the completed result and the diff captured on
the post-execution world. -/
def storeCall (env : RunEnv) (m : Migration) (w : World) :
    Except String Unit × World :=
  store_migration_log m (completedResult env m)
    (get_git_diff env.postGit (execWorld env w))
    env.storeFail env.storeErrMsg (execWorld env w)

/-- Execution and log storage (runner.py lines 331-407): the
measure-before counts, the awaited `migrate()` call, and on success the
measure-after counts, delta computation, context-log merge, `COMPLETED`
marking, diff capture, and the store call whose failure downgrades the
result; on a raise, the `FAILED` result carrying the error, the context
logs, and the traceback.  `tr` carries the trace accumulated so far. -/
def runExec (env : RunEnv) (m : Migration) (w : World) (tr : RunTrace) :
    RunOutput :=
  match env.execOutcome with
  | .ok _ =>
    let res := completedResult env m
    let tr2 := { tr with scriptExecuted := true
                         countCalls := tr.countCalls + 6
                         warnings := tr.warnings ++ beforeWarnings env ++ afterWarnings env
                         storeCalled := true }
    match (storeCall env m w).1 with
    | .ok _ => { result := res, world := (storeCall env m w).2, trace := tr2 }
    | .error msg =>
      { result := { res with
                      status := .failed
                      error := some (.storeError msg)
                      logs := res.logs ++
                        ["ERROR: Failed to store migration log: " ++ msg] }
        world := (storeCall env m w).2
        trace := tr2 }
  | .error e =>
    { result := failedExecResult env m e
      world := execWorld env w
      trace := { tr with scriptExecuted := true
                         countCalls := tr.countCalls + 3
                         warnings := tr.warnings ++ beforeWarnings env } }

/-- Determinism check onward (runner.py lines 304-407): skip if a
metadata record exists, otherwise load the script (any load failure
yields `FAILED` without execution), then execute. -/
def runFromDeterminism (env : RunEnv) (m : Migration) (w : World) :
    RunOutput :=
  let base : MigrationResult := { migration := m, status := .running }
  if is_migration_logged m w then
    { result := { base with status := .skipped, logs := [skipMsg m] }
      world := w
      trace := {} }
  else
    match load_script m env.script with
    | .error e =>
      { result := { base with
                      status := .failed
                      error := some (.loadErr e)
                      logs := ["Failed to load migration script: " ++ e.message] }
        world := w
        trace := { loaderInvoked := true } }
    | .ok _ => runExec env m w { loaderInvoked := true }

/-- `MigrationRunner.run_migration` (runner.py lines 243-407): preflight
uncommitted-changes check (unless disabled by the environment toggle),
determinism check, load, execute, measure, store. -/
def run_migration (env : RunEnv) (m : Migration) (w : World) : RunOutput :=
  let base : MigrationResult := { migration := m, status := .running }
  if !env.gitCheckDisabled then
    if pyTruthyOpt (get_git_diff env.preflightGit w) then
      { result := { base with
                      status := .failed
                      error := some (.runtimeError (dirtyTreeMsg m))
                      logs := [dirtyTreeMsg m] }
        world := w
        trace := {} }
    else runFromDeterminism env m w
  else runFromDeterminism env m w

/-- `MigrationRunner.run_migrations` (runner.py lines 681-757): run each
migration in the order given, collecting one result per processed
migration; on a `FAILED` result with `stop_on_failure` set, break. -/
def run_migrations (envOf : Migration → RunEnv) (stop_on_failure : Bool) :
    List Migration → World → List MigrationResult × World
  | [], w => ([], w)
  | m :: rest, w =>
    let out := run_migration (envOf m) m w
    if out.result.status = .failed ∧ stop_on_failure then
      ([out.result], out.world)
    else
      let rec2 := run_migrations envOf stop_on_failure rest out.world
      (out.result :: rec2.1, rec2.2)

/-! ### Concrete fixtures

A small migration set and environments used to instantiate the theorems:
a well-formed migration, scripts with specific defects, clean and stale
worlds, and environments exercising each failure mode. -/

/-- A well-formed migration descriptor. -/
def mEx : Migration :=
  { full_name := "001-demo", script_path := "migrations/001-demo/migrate.py",
    author := some "alice", date := some "2025-01-01", description := some "demo" }

/-- A second migration whose script raises at run time (see `envOf3`). -/
def mBad : Migration :=
  { full_name := "002-bad", script_path := "migrations/002-bad/migrate.py",
    author := some "bob", date := some "2025-01-02", description := some "bad" }

/-- A third migration, behind `mBad` in batch order. -/
def mThird : Migration :=
  { full_name := "003-third", script_path := "migrations/003-third/migrate.py",
    author := some "carol", date := some "2025-01-03", description := some "third" }

/-- A structurally valid script module with full metadata. -/
def sGood : Script :=
  { pathExists := true, importOutcome := .ok, hasMigrate := true,
    migrateCallable := true, migrateIsCoroutine := true,
    moduleAuthor := some "alice", moduleDate := some "2025-01-01",
    moduleDescription := some "demo" }

/-- A script module with no `AUTHOR` attribute. -/
def sNoAuthor : Script := { sGood with moduleAuthor := none }

/-- A script whose `migrate` is a plain synchronous function. -/
def sSync : Script := { sGood with migrateIsCoroutine := false }

/-- A clean git working tree with no migration logs. -/
def wClean : World := { isRepo := true, dirty := [] }

/-- A working tree with one pre-existing uncommitted change. -/
def wStale : World := { isRepo := true, dirty := ["stale.txt"] }

/-- A fully successful run: clean preflight, script creates 3 entities,
1 relationship, 3 versions, store succeeds. -/
def envGood : RunEnv :=
  { gitCheckDisabled := false, script := sGood,
    entitiesBefore := .ok 100, relationshipsBefore := .ok 50,
    versionsBefore := .ok 10,
    entitiesAfter := .ok 103, relationshipsAfter := .ok 51,
    versionsAfter := .ok 13,
    execDirty := ["entity/e1.json"], contextLogs := ["created e1"],
    duration := 2 }

/-- `envGood` with the preflight check disabled by the environment
variable toggle. -/
def envGoodD : RunEnv := { envGood with gitCheckDisabled := true }

/-- `envGood` but the `logs.txt` write inside `_store_migration_log`
raises. -/
def envStoreFail : RunEnv :=
  { envGood with storeFail := some .logsStep, storeErrMsg := "disk full" }

/-- `envGoodD` but the `migrate()` coroutine raises. -/
def envBadExec : RunEnv :=
  { envGoodD with execOutcome := .error "boom", execTraceback := "tb" }

/-- A stored metadata record for `001-demo`. -/
def lmEx : LogMeta :=
  { migration_name := "001-demo", author := some "alice",
    date := some "2025-01-01", description := some "demo",
    duration_seconds := some 2, status := .completed,
    entities_created := 3, relationships_created := 1, versions_created := 3,
    has_diff := false }

/-- A clean committed tree in which `001-demo` is already logged. -/
def wLogged : World :=
  { isRepo := true, dirty := [], records := [("001-demo", lmEx)],
    logFiles := ["001-demo"] }

/-- Batch environment: every migration runs like `envGoodD` except
`002-bad`, whose script raises. -/
def envOf3 (m : Migration) : RunEnv :=
  if m.full_name = "002-bad" then envBadExec else envGoodD

/-! ### Helper lemmas -/

/-- The rendered diff text is never the empty string. -/
lemma renderDiff_truthy (l : List String) : pyTruthyStr (renderDiff l) = true := by
  unfold renderDiff pyTruthyStr
  cases h : String.intercalate "\n+ " l
  rfl

/-- A repository with uncommitted changes yields a truthy diff from a
normal git call. -/
lemma get_git_diff_dirty (w : World) (hrepo : w.isRepo = true)
    (hdirty : w.dirty ≠ []) : pyTruthyOpt (get_git_diff .normal w) = true := by
  unfold get_git_diff
  simp only [hrepo, Bool.not_true, Bool.false_eq_true, if_false]
  simp only [List.isEmpty_eq_true, hdirty, if_false]
  exact renderDiff_truthy _

/-- A timed-out git call yields `None` whatever the tree state. -/
lemma get_git_diff_timeout (w : World) : get_git_diff .timeout w = none := by
  cases hr : w.isRepo <;> simp [get_git_diff, hr]

/-- When the preflight check is disabled or finds no truthy diff,
`run_migration` proceeds to the determinism check. -/
lemma run_migration_preflight_pass (env : RunEnv) (m : Migration) (w : World)
    (h : env.gitCheckDisabled = true ∨
         pyTruthyOpt (get_git_diff env.preflightGit w) = false) :
    run_migration env m w = runFromDeterminism env m w := by
  unfold run_migration
  cases hd : env.gitCheckDisabled with
  | true => simp
  | false =>
    rcases h with h | h
    · rw [hd] at h; exact absurd h (by simp)
    · simp [h]

/-- Every full store pass leaves a metadata record for the migration. -/
lemma logged_full_fold (m : Migration) (meta : LogMeta) (gd : Option String)
    (w : World) :
    is_migration_logged m ((store_steps gd).foldl (applyStoreStep m meta) w) = true := by
  unfold store_steps
  cases h : pyTruthyOpt gd <;>
    simp [List.foldl, applyStoreStep, is_migration_logged]

/-- A store call that does not raise leaves a metadata record. -/
lemma store_ok_logged (m : Migration) (res : MigrationResult) (gd : Option String)
    (failAt : Option StoreStep) (errMsg : String) (w : World)
    (h : (store_migration_log m res gd failAt errMsg w).1 = .ok ()) :
    is_migration_logged m (store_migration_log m res gd failAt errMsg w).2 = true := by
  unfold store_migration_log at h ⊢
  cases failAt with
  | none => simpa using logged_full_fold m _ gd w
  | some st =>
    by_cases hc : st ∈ store_steps gd
    · simp [hc] at h
    · simp [hc]
      simpa using logged_full_fold m _ gd w

/-- A `COMPLETED` run always leaves a metadata record in the final
world (the store must have succeeded). -/
lemma run_completed_logged (env : RunEnv) (m : Migration) (w : World)
    (h : (run_migration env m w).result.status = .completed) :
    is_migration_logged m (run_migration env m w).world = true := by
  unfold run_migration runFromDeterminism runExec at h ⊢
  cases hd : env.gitCheckDisabled <;>
  cases ht : pyTruthyOpt (get_git_diff env.preflightGit w) <;>
  cases hl : is_migration_logged m w <;>
  cases hload : load_script m env.script <;>
  cases hex : env.execOutcome <;>
  cases hst : (storeCall env m w).1 <;>
  simp [hd, ht, hl, hload, hex, hst, completedResult, failedExecResult] at h ⊢ <;>
  first
  | (unfold storeCall at hst; exact store_ok_logged _ _ _ _ _ _ hst)

/-- Explicit form of the preflight-failure branch (runner.py lines
285-297). -/
lemma run_migration_dirty (env : RunEnv) (m : Migration) (w : World)
    (hd : env.gitCheckDisabled = false)
    (ht : pyTruthyOpt (get_git_diff env.preflightGit w) = true) :
    run_migration env m w =
      { result := { migration := m, status := .failed,
                    error := some (.runtimeError (dirtyTreeMsg m)),
                    logs := [dirtyTreeMsg m] },
        world := w, trace := {} } := by
  unfold run_migration
  simp [hd, ht]

/-- Explicit form of the determinism-skip branch (runner.py lines
304-315). -/
lemma runFromDeterminism_logged (env : RunEnv) (m : Migration) (w : World)
    (hl : is_migration_logged m w = true) :
    runFromDeterminism env m w =
      { result := { migration := m, status := .skipped, logs := [skipMsg m] },
        world := w, trace := {} } := by
  unfold runFromDeterminism
  simp [hl]

/-- Explicit form of the load-failure branch (runner.py lines 317-326). -/
lemma runFromDeterminism_load_error (env : RunEnv) (m : Migration) (w : World)
    (e : LoadError) (hl : is_migration_logged m w = false)
    (hload : load_script m env.script = .error e) :
    runFromDeterminism env m w =
      { result := { migration := m, status := .failed,
                    error := some (.loadErr e),
                    logs := ["Failed to load migration script: " ++ e.message] },
        world := w, trace := { loaderInvoked := true } } := by
  unfold runFromDeterminism
  simp [hl, hload]

/-- A successful load proceeds to execution with the loader marked
invoked. -/
lemma runFromDeterminism_load_ok (env : RunEnv) (m : Migration) (w : World)
    (meta : ScriptMeta) (hl : is_migration_logged m w = false)
    (hload : load_script m env.script = .ok meta) :
    runFromDeterminism env m w = runExec env m w { loaderInvoked := true } := by
  unfold runFromDeterminism
  simp [hl, hload]

/-- Explicit form of the fully successful branch of `runExec`. -/
lemma runExec_ok_ok (env : RunEnv) (m : Migration) (w : World) (tr : RunTrace)
    (hex : env.execOutcome = .ok ()) (hst : (storeCall env m w).1 = .ok ()) :
    runExec env m w tr =
      { result := completedResult env m, world := (storeCall env m w).2,
        trace := { tr with scriptExecuted := true,
                           countCalls := tr.countCalls + 6,
                           warnings := tr.warnings ++ beforeWarnings env ++ afterWarnings env,
                           storeCalled := true } } := by
  unfold runExec
  simp [hex, hst]

/-- Explicit form of the store-failure downgrade branch of `runExec`
(runner.py lines 378-383). -/
lemma runExec_ok_storeErr (env : RunEnv) (m : Migration) (w : World)
    (tr : RunTrace) (msg : String)
    (hex : env.execOutcome = .ok ()) (hst : (storeCall env m w).1 = .error msg) :
    runExec env m w tr =
      { result := { completedResult env m with
                      status := .failed
                      error := some (.storeError msg)
                      logs := (completedResult env m).logs ++
                        ["ERROR: Failed to store migration log: " ++ msg] }
        world := (storeCall env m w).2
        trace := { tr with scriptExecuted := true,
                           countCalls := tr.countCalls + 6,
                           warnings := tr.warnings ++ beforeWarnings env ++ afterWarnings env,
                           storeCalled := true } } := by
  unfold runExec
  simp [hex, hst]

/-- Explicit form of the script-raise branch of `runExec` (runner.py
lines 385-405). -/
lemma runExec_err (env : RunEnv) (m : Migration) (w : World) (tr : RunTrace)
    (e : String) (hex : env.execOutcome = .error e) :
    runExec env m w tr =
      { result := failedExecResult env m e, world := execWorld env w,
        trace := { tr with scriptExecuted := true,
                           countCalls := tr.countCalls + 3,
                           warnings := tr.warnings ++ beforeWarnings env } } := by
  unfold runExec
  simp [hex]

/-- A store call never raises when no write statement raises. -/
lemma storeCall_ok_of_none (env : RunEnv) (m : Migration) (w : World)
    (hsf : env.storeFail = none) : (storeCall env m w).1 = .ok () := by
  unfold storeCall store_migration_log
  simp [hsf]

/-- A store call raises with the environment's message when the raising
statement is among the writes performed for this call. -/
lemma storeCall_fails (env : RunEnv) (m : Migration) (w : World) (st : StoreStep)
    (hsf : env.storeFail = some st)
    (hmem : st ∈ store_steps (get_git_diff env.postGit (execWorld env w))) :
    (storeCall env m w).1 = .error env.storeErrMsg := by
  unfold storeCall store_migration_log
  simp [hsf, hmem]

/-- `run_migration` always returns a result for the migration it was
given. -/
lemma run_migration_result_migration (env : RunEnv) (m : Migration) (w : World) :
    (run_migration env m w).result.migration = m := by
  unfold run_migration runFromDeterminism runExec
  cases hd : env.gitCheckDisabled <;>
  cases ht : pyTruthyOpt (get_git_diff env.preflightGit w) <;>
  cases hl : is_migration_logged m w <;>
  cases hload : load_script m env.script <;>
  cases hex : env.execOutcome <;>
  cases hst : (storeCall env m w).1 <;>
  simp [hd, ht, hl, hload, hex, hst, completedResult, failedExecResult]

/-! ### Claims -/

/-- C4: with the preflight check enabled, any uncommitted change in the
storage tree makes `run_migration` return `FAILED` with the descriptive
dirty-tree error, without invoking the script loader, without executing
the script, without taking any count measurement, and without touching
the world. -/
theorem c4_dirty_tree_refusal (env : RunEnv) (m : Migration) (w : World)
    (hcheck : env.gitCheckDisabled = false)
    (hgit : env.preflightGit = .normal)
    (hrepo : w.isRepo = true)
    (hdirty : w.dirty ≠ []) :
    (run_migration env m w).result.status = .failed ∧
    (run_migration env m w).result.error = some (.runtimeError (dirtyTreeMsg m)) ∧
    (run_migration env m w).result.logs = [dirtyTreeMsg m] ∧
    (run_migration env m w).trace.loaderInvoked = false ∧
    (run_migration env m w).trace.scriptExecuted = false ∧
    (run_migration env m w).trace.countCalls = 0 ∧
    (run_migration env m w).trace.storeCalled = false ∧
    (run_migration env m w).world = w := by
  have ht : pyTruthyOpt (get_git_diff env.preflightGit w) = true := by
    rw [hgit]; exact get_git_diff_dirty w hrepo hdirty
  rw [run_migration_dirty env m w hcheck ht]
  simp

/-- Witness for C4: a stale uncommitted file refuses a well-formed
migration. -/
theorem c4_dirty_tree_refusal_witness :
    (run_migration envGood mEx wStale).result.status = .failed ∧
    (run_migration envGood mEx wStale).result.error =
      some (.runtimeError (dirtyTreeMsg mEx)) ∧
    (run_migration envGood mEx wStale).result.logs = [dirtyTreeMsg mEx] ∧
    (run_migration envGood mEx wStale).trace.loaderInvoked = false ∧
    (run_migration envGood mEx wStale).trace.scriptExecuted = false ∧
    (run_migration envGood mEx wStale).trace.countCalls = 0 ∧
    (run_migration envGood mEx wStale).trace.storeCalled = false ∧
    (run_migration envGood mEx wStale).world = wStale :=
  c4_dirty_tree_refusal envGood mEx wStale rfl rfl rfl (by decide)

/-- C8: in every `run_migration` result, the error field is populated
exactly when the status is `FAILED`. -/
theorem c8_error_iff_failed (env : RunEnv) (m : Migration) (w : World) :
    ((run_migration env m w).result.error.isSome = true) ↔
      (run_migration env m w).result.status = .failed := by
  unfold run_migration runFromDeterminism runExec
  cases hd : env.gitCheckDisabled <;>
  cases ht : pyTruthyOpt (get_git_diff env.preflightGit w) <;>
  cases hl : is_migration_logged m w <;>
  cases hload : load_script m env.script <;>
  cases hex : env.execOutcome <;>
  cases hst : (storeCall env m w).1 <;>
  simp [hd, ht, hl, hload, hex, hst, completedResult, failedExecResult]

/-- C1 counterexample: a migration whose first `run_migration` call (with
the preflight check enabled, on a clean repository tree) returns
`COMPLETED`, and whose immediately following second call returns `FAILED`,
not `SKIPPED` — the first call's own log-store writes leave the tree
dirty, so the second call is refused by the preflight check before the
determinism check is ever reached. -/
theorem c1_counterexample :
    (run_migration envGood mEx wClean).result.status = .completed ∧
    (run_migration envGood mEx
        (run_migration envGood mEx wClean).world).result.status = .failed ∧
    (run_migration envGood mEx
        (run_migration envGood mEx wClean).world).result.status ≠ .skipped := by
  decide

/-- C1 amended: (1) whenever a metadata log record exists for the
migration's name AND the preflight check passes (disabled, or no truthy
diff), `run_migration` returns `SKIPPED` with zero deltas, no error, no
loader invocation, no execution, no store call, and an unchanged world;
(2) after a first call returns `COMPLETED`, a second call whose preflight
check is disabled (or whose tree was committed in between) returns
`SKIPPED` with zero deltas and no side effects. -/
theorem c1_skip_when_logged :
    (∀ (env : RunEnv) (m : Migration) (w : World),
        is_migration_logged m w = true →
        (env.gitCheckDisabled = true ∨
          pyTruthyOpt (get_git_diff env.preflightGit w) = false) →
        (run_migration env m w).result.status = .skipped ∧
        (run_migration env m w).result.entities_created = 0 ∧
        (run_migration env m w).result.relationships_created = 0 ∧
        (run_migration env m w).result.versions_created = 0 ∧
        (run_migration env m w).result.error = none ∧
        (run_migration env m w).world = w ∧
        (run_migration env m w).trace.loaderInvoked = false ∧
        (run_migration env m w).trace.scriptExecuted = false ∧
        (run_migration env m w).trace.storeCalled = false) ∧
    (∀ (env env2 : RunEnv) (m : Migration) (w : World),
        env2.gitCheckDisabled = true →
        (run_migration env m w).result.status = .completed →
        (run_migration env2 m (run_migration env m w).world).result.status = .skipped ∧
        (run_migration env2 m (run_migration env m w).world).result.entities_created = 0 ∧
        (run_migration env2 m (run_migration env m w).world).result.relationships_created = 0 ∧
        (run_migration env2 m (run_migration env m w).world).result.versions_created = 0 ∧
        (run_migration env2 m (run_migration env m w).world).world =
          (run_migration env m w).world) := by
  constructor
  · intro env m w hl hpre
    rw [run_migration_preflight_pass env m w hpre, runFromDeterminism_logged env m w hl]
    simp
  · intro env env2 m w hdis hcomp
    have hlg := run_completed_logged env m w hcomp
    rw [run_migration_preflight_pass env2 m _ (Or.inl hdis),
        runFromDeterminism_logged env2 m _ hlg]
    simp

/-- Witness for C1 (amended): a run against an already-logged clean tree
skips without side effects, and after a first completed run a second run
with the check disabled skips with zero deltas. -/
theorem c1_skip_when_logged_witness :
    ((run_migration envGood mEx wLogged).result.status = .skipped ∧
     (run_migration envGood mEx wLogged).result.error = none ∧
     (run_migration envGood mEx wLogged).world = wLogged ∧
     (run_migration envGood mEx wLogged).trace.loaderInvoked = false ∧
     (run_migration envGood mEx wLogged).trace.scriptExecuted = false) ∧
    (run_migration envGoodD mEx
        (run_migration envGood mEx wClean).world).result.status = .skipped ∧
    (run_migration envGoodD mEx
        (run_migration envGood mEx wClean).world).result.entities_created = 0 ∧
    (run_migration envGoodD mEx
        (run_migration envGood mEx wClean).world).result.relationships_created = 0 ∧
    (run_migration envGoodD mEx
        (run_migration envGood mEx wClean).world).result.versions_created = 0 ∧
    (run_migration envGoodD mEx
        (run_migration envGood mEx wClean).world).world =
      (run_migration envGood mEx wClean).world := by
  have h1 := c1_skip_when_logged.1 envGood mEx wLogged (by decide) (Or.inr (by decide))
  have h2 := c1_skip_when_logged.2 envGood envGoodD mEx wClean rfl (by decide)
  exact ⟨⟨h1.1, h1.2.2.2.2.1, h1.2.2.2.2.2.1, h1.2.2.2.2.2.2.1, h1.2.2.2.2.2.2.2.1⟩, h2⟩

/-- C2: `_store_migration_log` writes `metadata.json` FIRST, before
`changes.diff` and `logs.txt` — not last as the spec requires.  A store
call whose `logs.txt` write raises therefore leaves a metadata record
with no logs artifact: the run is reported `FAILED`, yet
`_is_migration_logged` sees the record, and a subsequent run returns
`SKIPPED` — the partially written record is mistaken for a complete
one. -/
theorem c2_metadata_written_first :
    store_steps (some "+ x") = [.mkdirStep, .metadataStep, .diffStep, .logsStep] ∧
    store_steps none = [.mkdirStep, .metadataStep, .logsStep] ∧
    (store_steps (some "+ x")).getLast? = some .logsStep ∧
    (store_steps none).getLast? = some .logsStep ∧
    (run_migration envStoreFail mEx wClean).result.status = .failed ∧
    is_migration_logged mEx (run_migration envStoreFail mEx wClean).world = true ∧
    (run_migration envStoreFail mEx wClean).world.logFiles = [] ∧
    (run_migration envGoodD mEx
        (run_migration envStoreFail mEx wClean).world).result.status = .skipped := by
  decide

/-- C5 counterexample: a timeout of the preflight git-diff check is NOT
fatal — the check silently passes (the diff degrades to `None`) and the
run completes, even over a tree whose uncommitted change would have
failed the preflight had the git call returned normally. -/
theorem c5_counterexample :
    (run_migration { envGood with preflightGit := .timeout } mEx wStale).result.status
        = .completed ∧
    (run_migration { envGood with preflightGit := .timeout } mEx wStale).result.status
        ≠ .failed ∧
    (run_migration envGood mEx wStale).result.status = .failed := by
  decide

/-- C5 amended: both git-diff timeouts are non-fatal.  A preflight
timeout makes the uncommitted-changes check pass silently (the call
behaves exactly as if the preflight found nothing), and a post-execution
timeout degrades to an absent diff — the stored record carries
`has_diff = false`, no `changes.diff` artifact is written, and the
outcome stays `COMPLETED`. -/
theorem c5_timeouts_nonfatal :
    (∀ (env : RunEnv) (m : Migration) (w : World),
        env.preflightGit = .timeout →
        run_migration env m w = runFromDeterminism env m w) ∧
    (∀ (env : RunEnv) (m : Migration) (w : World) (meta : ScriptMeta),
        env.postGit = .timeout →
        (env.gitCheckDisabled = true ∨
          pyTruthyOpt (get_git_diff env.preflightGit w) = false) →
        is_migration_logged m w = false →
        load_script m env.script = .ok meta →
        env.execOutcome = .ok () →
        env.storeFail = none →
        (run_migration env m w).result.status = .completed ∧
        (run_migration env m w).world.records =
          w.records ++ [(m.full_name, buildLogMeta m (completedResult env m) none)] ∧
        (buildLogMeta m (completedResult env m) none).has_diff = false ∧
        (run_migration env m w).world.diffFiles = w.diffFiles) := by
  constructor
  · intro env m w hpf
    have hnone : get_git_diff env.preflightGit w = none := by
      rw [hpf]; exact get_git_diff_timeout w
    unfold run_migration
    cases hd : env.gitCheckDisabled <;> simp [hnone, pyTruthyOpt]
  · intro env m w meta hpost hpre hlog hload hexec hsf
    have hst : (storeCall env m w).1 = .ok () := storeCall_ok_of_none env m w hsf
    rw [run_migration_preflight_pass env m w hpre,
        runFromDeterminism_load_ok env m w meta hlog hload,
        runExec_ok_ok env m w _ hexec hst]
    unfold storeCall store_migration_log
    simp [hsf, hpost, get_git_diff_timeout, store_steps, pyTruthyOpt,
          List.foldl, applyStoreStep, execWorld, completedResult, buildLogMeta]

/-- Witness for C5 (amended): a preflight timeout proceeds past the
check even over a stale tree, and a post-execution timeout completes
with `has_diff = false` and no diff artifact. -/
theorem c5_timeouts_nonfatal_witness :
    (run_migration { envGood with preflightGit := .timeout } mEx wStale =
      runFromDeterminism { envGood with preflightGit := .timeout } mEx wStale) ∧
    ((run_migration { envGood with postGit := .timeout } mEx wClean).result.status
        = .completed ∧
     (run_migration { envGood with postGit := .timeout } mEx wClean).world.records =
       wClean.records ++
         [(mEx.full_name,
           buildLogMeta mEx
             (completedResult { envGood with postGit := .timeout } mEx) none)] ∧
     (buildLogMeta mEx
         (completedResult { envGood with postGit := .timeout } mEx) none).has_diff
        = false ∧
     (run_migration { envGood with postGit := .timeout } mEx wClean).world.diffFiles =
       wClean.diffFiles) :=
  ⟨c5_timeouts_nonfatal.1 { envGood with preflightGit := .timeout } mEx wStale rfl,
   c5_timeouts_nonfatal.2 { envGood with postGit := .timeout } mEx wClean
     ⟨some "alice", some "2025-01-01", some "demo"⟩
     rfl (Or.inr (by decide)) (by decide) (by decide) rfl rfl⟩

/-- C3: when the script executes successfully but the log-store write
raises, the returned result is `FAILED` (not `COMPLETED`), its error
field carries the storage error, and an explicit error note is appended
to its logs after the merged context logs. -/
theorem c3_store_failure_downgrades (env : RunEnv) (m : Migration) (w : World)
    (st : StoreStep) (meta : ScriptMeta)
    (hpre : env.gitCheckDisabled = true ∨
      pyTruthyOpt (get_git_diff env.preflightGit w) = false)
    (hlog : is_migration_logged m w = false)
    (hload : load_script m env.script = .ok meta)
    (hexec : env.execOutcome = .ok ())
    (hsf : env.storeFail = some st)
    (hmem : st ∈ store_steps (get_git_diff env.postGit (execWorld env w))) :
    (run_migration env m w).result.status = .failed ∧
    (run_migration env m w).result.error = some (.storeError env.storeErrMsg) ∧
    (run_migration env m w).result.logs =
      env.contextLogs ++
        ["ERROR: Failed to store migration log: " ++ env.storeErrMsg] := by
  have hst := storeCall_fails env m w st hsf hmem
  rw [run_migration_preflight_pass env m w hpre,
      runFromDeterminism_load_ok env m w meta hlog hload,
      runExec_ok_storeErr env m w _ env.storeErrMsg hexec hst]
  simp [completedResult]

/-- Witness for C3: the `logs.txt` write raising "disk full" downgrades
a successful run. -/
theorem c3_store_failure_downgrades_witness :
    (run_migration envStoreFail mEx wClean).result.status = .failed ∧
    (run_migration envStoreFail mEx wClean).result.error =
      some (.storeError "disk full") ∧
    (run_migration envStoreFail mEx wClean).result.logs =
      ["created e1", "ERROR: Failed to store migration log: disk full"] :=
  c3_store_failure_downgrades envStoreFail mEx wClean .logsStep
    ⟨some "alice", some "2025-01-01", some "demo"⟩
    (Or.inr (by decide)) (by decide) (by decide) rfl rfl (by decide)

/-- C10: the store-failure downgrade is a frame change: compared with
the same run whose store succeeds, the downgraded result keeps the same
duration, the same three deltas, the same migration, and the same log
lines with only the error note appended; only status and error differ. -/
theorem c10_downgrade_frame (env : RunEnv) (m : Migration) (w : World)
    (st : StoreStep) (meta : ScriptMeta)
    (hpre : env.gitCheckDisabled = true ∨
      pyTruthyOpt (get_git_diff env.preflightGit w) = false)
    (hlog : is_migration_logged m w = false)
    (hload : load_script m env.script = .ok meta)
    (hexec : env.execOutcome = .ok ())
    (hsf : env.storeFail = some st)
    (hmem : st ∈ store_steps (get_git_diff env.postGit (execWorld env w))) :
    (run_migration env m w).result.duration_seconds =
      (run_migration { env with storeFail := none } m w).result.duration_seconds ∧
    (run_migration env m w).result.entities_created =
      (run_migration { env with storeFail := none } m w).result.entities_created ∧
    (run_migration env m w).result.relationships_created =
      (run_migration { env with storeFail := none } m w).result.relationships_created ∧
    (run_migration env m w).result.versions_created =
      (run_migration { env with storeFail := none } m w).result.versions_created ∧
    (run_migration env m w).result.migration =
      (run_migration { env with storeFail := none } m w).result.migration ∧
    (run_migration env m w).result.logs =
      (run_migration { env with storeFail := none } m w).result.logs ++
        ["ERROR: Failed to store migration log: " ++ env.storeErrMsg] ∧
    (run_migration env m w).result.status = .failed ∧
    (run_migration { env with storeFail := none } m w).result.status = .completed ∧
    (run_migration env m w).result.error = some (.storeError env.storeErrMsg) ∧
    (run_migration { env with storeFail := none } m w).result.error = none := by
  have hst := storeCall_fails env m w st hsf hmem
  have hstS : (storeCall { env with storeFail := none } m w).1 = .ok () :=
    storeCall_ok_of_none _ m w rfl
  rw [run_migration_preflight_pass env m w hpre,
      runFromDeterminism_load_ok env m w meta hlog hload,
      runExec_ok_storeErr env m w _ env.storeErrMsg hexec hst,
      run_migration_preflight_pass { env with storeFail := none } m w hpre,
      runFromDeterminism_load_ok { env with storeFail := none } m w meta hlog hload,
      runExec_ok_ok { env with storeFail := none } m w _ hexec hstS]
  simp [completedResult]

/-- Witness for C10: the downgraded "disk full" run agrees with its
successful twin on everything but status, error, and the appended
note. -/
theorem c10_downgrade_frame_witness :
    (run_migration envStoreFail mEx wClean).result.duration_seconds =
      (run_migration { envStoreFail with storeFail := none } mEx wClean).result.duration_seconds ∧
    (run_migration envStoreFail mEx wClean).result.entities_created =
      (run_migration { envStoreFail with storeFail := none } mEx wClean).result.entities_created ∧
    (run_migration envStoreFail mEx wClean).result.relationships_created =
      (run_migration { envStoreFail with storeFail := none } mEx wClean).result.relationships_created ∧
    (run_migration envStoreFail mEx wClean).result.versions_created =
      (run_migration { envStoreFail with storeFail := none } mEx wClean).result.versions_created ∧
    (run_migration envStoreFail mEx wClean).result.migration =
      (run_migration { envStoreFail with storeFail := none } mEx wClean).result.migration ∧
    (run_migration envStoreFail mEx wClean).result.logs =
      (run_migration { envStoreFail with storeFail := none } mEx wClean).result.logs ++
        ["ERROR: Failed to store migration log: " ++ "disk full"] ∧
    (run_migration envStoreFail mEx wClean).result.status = .failed ∧
    (run_migration { envStoreFail with storeFail := none } mEx wClean).result.status
      = .completed ∧
    (run_migration envStoreFail mEx wClean).result.error =
      some (.storeError "disk full") ∧
    (run_migration { envStoreFail with storeFail := none } mEx wClean).result.error
      = none :=
  c10_downgrade_frame envStoreFail mEx wClean .logsStep
    ⟨some "alice", some "2025-01-01", some "demo"⟩
    (Or.inr (by decide)) (by decide) (by decide) rfl rfl (by decide)

/-- The raising/non-raising outcome of a store call is independent of the
migration, the result record, and the incoming world. -/
lemma store_fst_eq (m m2 : Migration) (res res2 : MigrationResult)
    (gd : Option String) (failAt : Option StoreStep) (errMsg : String)
    (w w2 : World) :
    (store_migration_log m res gd failAt errMsg w).1 =
      (store_migration_log m2 res2 gd failAt errMsg w2).1 := by
  unfold store_migration_log
  cases failAt with
  | none => rfl
  | some st => by_cases h : st ∈ store_steps gd <;> simp [h]

/-- The status of the execution phase depends only on the script outcome
and the store behaviour, never on the count outcomes. -/
lemma runExec_status_eq (env env2 : RunEnv) (m : Migration) (w : World)
    (tr tr2 : RunTrace)
    (hexo : env2.execOutcome = env.execOutcome)
    (hpg : env2.postGit = env.postGit)
    (hed : env2.execDirty = env.execDirty)
    (hsf : env2.storeFail = env.storeFail)
    (hsem : env2.storeErrMsg = env.storeErrMsg) :
    (runExec env2 m w tr2).result.status = (runExec env m w tr).result.status := by
  unfold runExec
  cases hex : env.execOutcome with
  | error e => rw [hexo, hex]; simp [failedExecResult]
  | ok u =>
    rw [hexo, hex]
    have hw : execWorld env2 w = execWorld env w := by
      unfold execWorld; rw [hed]
    have hse : (storeCall env2 m w).1 = (storeCall env m w).1 := by
      unfold storeCall
      rw [hw, hpg, hsf, hsem]
      exact store_fst_eq m m _ _ _ _ _ _ _
    rw [hse]
    cases hst : (storeCall env m w).1 <;> simp [hst, completedResult]

/-- Status equality from the determinism check onward, for environments
agreeing on everything but the count outcomes. -/
lemma runFromDeterminism_status_eq (env env2 : RunEnv) (m : Migration) (w : World)
    (hscr : env2.script = env.script)
    (hexo : env2.execOutcome = env.execOutcome)
    (hpg : env2.postGit = env.postGit)
    (hed : env2.execDirty = env.execDirty)
    (hsf : env2.storeFail = env.storeFail)
    (hsem : env2.storeErrMsg = env.storeErrMsg) :
    (runFromDeterminism env2 m w).result.status =
      (runFromDeterminism env m w).result.status := by
  unfold runFromDeterminism
  rw [hscr]
  cases hl : is_migration_logged m w <;> simp [hl]
  cases hload : load_script m env.script with
  | error e => simp [hload]
  | ok meta =>
    simp [hload]
    exact runExec_status_eq env env2 m w _ _ hexo hpg hed hsf hsem

/-- Status equality of full runs for environments agreeing on everything
but the count outcomes. -/
lemma run_migration_status_eq (env env2 : RunEnv) (m : Migration) (w : World)
    (hgcd : env2.gitCheckDisabled = env.gitCheckDisabled)
    (hprg : env2.preflightGit = env.preflightGit)
    (hscr : env2.script = env.script)
    (hexo : env2.execOutcome = env.execOutcome)
    (hpg : env2.postGit = env.postGit)
    (hed : env2.execDirty = env.execDirty)
    (hsf : env2.storeFail = env.storeFail)
    (hsem : env2.storeErrMsg = env.storeErrMsg) :
    (run_migration env2 m w).result.status =
      (run_migration env m w).result.status := by
  unfold run_migration
  rw [hgcd, hprg]
  cases hd : env.gitCheckDisabled <;> simp [hd] <;>
  [skip; exact runFromDeterminism_status_eq env env2 m w hscr hexo hpg hed hsf hsem]
  cases ht : pyTruthyOpt (get_git_diff env.preflightGit w) <;> simp [ht]
  exact runFromDeterminism_status_eq env env2 m w hscr hexo hpg hed hsf hsem

/-- C7: script loading fails with a metadata error naming explicitly
each absent field among AUTHOR, DATE, DESCRIPTION; it fails with a
structural error when `migrate` is missing, not callable, or not an
`async def` coroutine; and any load failure yields a `FAILED`
`run_migration` result with the load error, no execution, no count
measurements, and an untouched world. -/
theorem c7_load_validation :
    (∀ (m : Migration) (s : Script),
        s.pathExists = true → s.importOutcome = .ok → s.hasMigrate = true →
        s.migrateCallable = true → s.migrateIsCoroutine = true →
        missingMetadataFields s ≠ [] →
        load_script m s =
          .error (.missingMetadata m.full_name (missingMetadataFields s))) ∧
    (∀ s : Script,
        ("AUTHOR" ∈ missingMetadataFields s ↔ pyFalsyOpt s.moduleAuthor = true) ∧
        ("DATE" ∈ missingMetadataFields s ↔ pyFalsyOpt s.moduleDate = true) ∧
        ("DESCRIPTION" ∈ missingMetadataFields s ↔
          pyFalsyOpt s.moduleDescription = true)) ∧
    (∀ (m : Migration) (s : Script),
        s.pathExists = true → s.importOutcome = .ok → s.hasMigrate = false →
        load_script m s = .error (.noMigrateFunction m.full_name)) ∧
    (∀ (m : Migration) (s : Script),
        s.pathExists = true → s.importOutcome = .ok → s.hasMigrate = true →
        s.migrateCallable = false →
        load_script m s = .error (.notCallable m.full_name)) ∧
    (∀ (m : Migration) (s : Script),
        s.pathExists = true → s.importOutcome = .ok → s.hasMigrate = true →
        s.migrateCallable = true → s.migrateIsCoroutine = false →
        load_script m s = .error (.notAsync m.full_name)) ∧
    (∀ (env : RunEnv) (m : Migration) (w : World) (e : LoadError),
        (env.gitCheckDisabled = true ∨
          pyTruthyOpt (get_git_diff env.preflightGit w) = false) →
        is_migration_logged m w = false →
        load_script m env.script = .error e →
        (run_migration env m w).result.status = .failed ∧
        (run_migration env m w).result.error = some (.loadErr e) ∧
        (run_migration env m w).trace.scriptExecuted = false ∧
        (run_migration env m w).trace.countCalls = 0 ∧
        (run_migration env m w).world = w) := by
  refine ⟨?_, ?_, ?_, ?_, ?_, ?_⟩
  · intro m s h1 h2 h3 h4 h5 hmiss
    unfold load_script
    simp [h1, h2, h3, h4, h5, hmiss]
  · intro s
    unfold missingMetadataFields
    cases ha : pyFalsyOpt s.moduleAuthor <;>
    cases hd : pyFalsyOpt s.moduleDate <;>
    cases hde : pyFalsyOpt s.moduleDescription <;>
    simp
  · intro m s h1 h2 h3
    unfold load_script
    simp [h1, h2, h3]
  · intro m s h1 h2 h3 h4
    unfold load_script
    simp [h1, h2, h3, h4]
  · intro m s h1 h2 h3 h4 h5
    unfold load_script
    simp [h1, h2, h3, h4, h5]
  · intro env m w e hpre hlog hload
    rw [run_migration_preflight_pass env m w hpre,
        runFromDeterminism_load_error env m w e hlog hload]
    simp

/-- Witness for C7: a script with no `AUTHOR` names `AUTHOR` in its
metadata error, a synchronous `migrate` is a structural error, and the
run with such a script fails without executing. -/
theorem c7_load_validation_witness :
    load_script mEx sNoAuthor = .error (.missingMetadata "001-demo" ["AUTHOR"]) ∧
    load_script mEx sSync = .error (.notAsync "001-demo") ∧
    (run_migration { envGoodD with script := sSync } mEx wClean).result.status
      = .failed ∧
    (run_migration { envGoodD with script := sSync } mEx wClean).trace.scriptExecuted
      = false := by
  have h1 := c7_load_validation.1 mEx sNoAuthor rfl rfl rfl rfl rfl (by decide)
  have h5 := c7_load_validation.2.2.2.2.1 mEx sSync rfl rfl rfl rfl rfl
  have h6 := c7_load_validation.2.2.2.2.2 { envGoodD with script := sSync } mEx wClean
    (.notAsync "001-demo") (Or.inl rfl) (by decide) (by exact h5)
  exact ⟨by simpa using h1, h5, h6.1, h6.2.2.1⟩

/-- C9: a failing count measurement degrades to a zero count plus a
warning, and the count outcomes never influence the status of the run —
replacing any of the six count outcomes (including by failures) leaves
`run_migration`'s status unchanged. -/
theorem c9_count_failures_harmless :
    (∀ e : String, count_entities (.error e) =
        (0, some ("Failed to count entities: " ++ e))) ∧
    (∀ e : String, count_relationships (.error e) =
        (0, some ("Failed to count relationships: " ++ e))) ∧
    (∀ e : String, count_version_files (.error e) =
        (0, some ("Failed to count version files: " ++ e))) ∧
    (∀ (env : RunEnv) (m : Migration) (w : World)
        (c1 c2 c3 c4 c5 c6 : Except String Nat),
        (run_migration
            { env with entitiesBefore := c1, relationshipsBefore := c2,
                       versionsBefore := c3, entitiesAfter := c4,
                       relationshipsAfter := c5, versionsAfter := c6 }
            m w).result.status = (run_migration env m w).result.status) :=
  ⟨fun _ => rfl, fun _ => rfl, fun _ => rfl,
   fun env m w c1 c2 c3 c4 c5 c6 =>
     run_migration_status_eq env _ m w rfl rfl rfl rfl rfl rfl rfl rfl⟩

/-- C6: `run_migrations` processes migrations strictly in the order
given and returns one result per processed migration in that order
(`map migration = take`); a result list shorter than the input can only
arise from a `FAILED` result with `stop_on_failure` set, and then the
failed result is the last one returned (`i + 1 = length`); when no
result is `FAILED`, and likewise whenever `stop_on_failure` is false,
every migration is processed. -/
theorem c6_batch_semantics (envOf : Migration → RunEnv) (stop : Bool) :
    ∀ (ms : List Migration) (w : World),
      ((run_migrations envOf stop ms w).1.map (fun r => r.migration) =
        ms.take (run_migrations envOf stop ms w).1.length) ∧
      ((run_migrations envOf stop ms w).1.length ≤ ms.length) ∧
      (∀ i, ∀ h : i < (run_migrations envOf stop ms w).1.length,
        ((run_migrations envOf stop ms w).1.get ⟨i, h⟩).status = .failed →
        stop = true → i + 1 = (run_migrations envOf stop ms w).1.length) ∧
      ((∀ i, ∀ h : i < (run_migrations envOf stop ms w).1.length,
        ((run_migrations envOf stop ms w).1.get ⟨i, h⟩).status ≠ .failed) →
        (run_migrations envOf stop ms w).1.length = ms.length) ∧
      (stop = false → (run_migrations envOf stop ms w).1.length = ms.length) := by
  intro ms
  induction ms with
  | nil =>
    intro w
    simp [run_migrations]
  | cons m rest ih =>
    intro w
    by_cases hc : (run_migration (envOf m) m w).result.status = .failed ∧ stop = true
    · have hrw : run_migrations envOf stop (m :: rest) w =
          ([(run_migration (envOf m) m w).result],
           (run_migration (envOf m) m w).world) := by
        rw [run_migrations]
        simp [hc]
      rw [hrw]
      refine ⟨?_, ?_, ?_, ?_, ?_⟩
      · simp [run_migration_result_migration]
      · simp
      · intro i h hf hstop
        simp at h ⊢
        omega
      · intro hall
        exact absurd hc.1 (by simpa using hall 0 (by simp))
      · intro hsf
        exact absurd hc.2 (by simp [hsf])
    · have hrw : run_migrations envOf stop (m :: rest) w =
          ((run_migration (envOf m) m w).result ::
             (run_migrations envOf stop rest (run_migration (envOf m) m w).world).1,
           (run_migrations envOf stop rest (run_migration (envOf m) m w).world).2) := by
        rw [run_migrations]
        simp [hc]
      rw [hrw]
      obtain ⟨ih1, ih2, ih3, ih4, ih5⟩ := ih (run_migration (envOf m) m w).world
      refine ⟨?_, ?_, ?_, ?_, ?_⟩
      · simp [run_migration_result_migration, ih1]
      · simpa using Nat.succ_le_succ ih2
      · intro i h hf hstop
        match i, h, hf with
        | 0, h, hf =>
          exact absurd ⟨by simpa using hf, hstop⟩ hc
        | Nat.succ j, h, hf =>
          have hj : j < (run_migrations envOf stop rest
              (run_migration (envOf m) m w).world).1.length := by
            simpa using h
          have hh := ih3 j hj (by simpa using hf) hstop
          simp
          omega
      · intro hall
        have hlen : (run_migrations envOf stop rest
            (run_migration (envOf m) m w).world).1.length = rest.length := by
          apply ih4
          intro j hj
          have := hall (j+1) (by simpa using Nat.succ_lt_succ hj)
          simpa using this
        simp [hlen]
      · intro hsf
        have := ih5 hsf
        simp [this]

/-- Witness for C6: on `[001-demo, 002-bad, 003-third]` with `002-bad`
raising, a stop-on-failure batch yields exactly the first two results in
order, a continue-on-failure batch yields all three, and a batch with no
failure also yields all three. -/
theorem c6_batch_semantics_witness :
    ((run_migrations envOf3 true [mEx, mBad, mThird] wClean).1.map (fun r => r.migration) =
      [mEx, mBad, mThird].take
        (run_migrations envOf3 true [mEx, mBad, mThird] wClean).1.length) ∧
    (run_migrations envOf3 true [mEx, mBad, mThird] wClean).1.length = 2 ∧
    (run_migrations envOf3 false [mEx, mBad, mThird] wClean).1.length = 3 ∧
    (run_migrations (fun _ => envGoodD) true [mEx, mBad, mThird] wClean).1.length = 3 := by
  have hbase := c6_batch_semantics envOf3 true [mEx, mBad, mThird] wClean
  refine ⟨hbase.1, ?_, ?_, ?_⟩
  · have hlt : 1 < (run_migrations envOf3 true [mEx, mBad, mThird] wClean).1.length := by
      decide
    have hopt : ((run_migrations envOf3 true
        [mEx, mBad, mThird] wClean).1[1]?).map (fun r => r.status) =
          some MigrationStatus.failed := by decide
    rw [List.getElem?_eq_getElem hlt] at hopt
    have hf : ((run_migrations envOf3 true
        [mEx, mBad, mThird] wClean).1.get ⟨1, hlt⟩).status = .failed := by
      simpa [List.get_eq_getElem] using hopt
    have hhalt := hbase.2.2.1 1 hlt hf rfl
    omega
  · have h := (c6_batch_semantics envOf3 false [mEx, mBad, mThird] wClean).2.2.2.2 rfl
    simpa using h
  · have hlen := c6_batch_semantics (fun _ => envGoodD) true [mEx, mBad, mThird] wClean
    have hallb : (run_migrations (fun _ => envGoodD) true
        [mEx, mBad, mThird] wClean).1.all
          (fun r => r.status != MigrationStatus.failed) = true := by
      decide
    have hall : ∀ i, ∀ h : i < (run_migrations (fun _ => envGoodD) true
        [mEx, mBad, mThird] wClean).1.length,
        ((run_migrations (fun _ => envGoodD) true
          [mEx, mBad, mThird] wClean).1.get ⟨i, h⟩).status ≠ .failed := by
      intro i h
      have hm := List.all_eq_true.mp hallb _ (List.get_mem _ i h)
      simpa using hm
    have h := hlen.2.2.2.1 hall
    simpa using h

end NES
